import Mathlib

/-!
Verification of `src/eventloop.rs` of the `esp-idf-svc` crate: a typed
publish/subscribe event-loop wrapper over the ESP-IDF `esp_event` facility.

The Rust code is shallowly embedded:
* ESP-IDF status codes (`esp_err_t`) are `Int`;
* the `esp!` macro (turning a status into `Result<(), EspError>`) is `espCheck`;
* `.unwrap()` on a `Result` (a process abort on `Err`) is modelled by
  `Option`, where `none` is the abort/panic;
* the compile-time loop-mode parameter `T` of `EspEventLoop<T>` is the
  inductive `LoopMode`;
* the native facility is an oracle: each embedded operation takes the status
  the facility would return as an explicit argument;
* `Arc` strong counts and the `TAKEN` global flag become explicit state
  threaded through step functions.
-/

namespace EspIdfSvc

/-! ## ESP-IDF status codes (from `esp_err.h`, used via `esp-idf-sys`) -/

def ESP_OK : Int := 0
def ESP_FAIL : Int := -1
def ESP_ERR_INVALID_STATE : Int := 0x103
def ESP_ERR_TIMEOUT : Int := 0x107

/-- The `esp!` macro: `Ok(())` when the status is `ESP_OK`, otherwise
`Err(EspError(status))`. -/
def espCheck (status : Int) : Except Int Unit :=
  if status = ESP_OK then .ok () else .error status

/-! ## Loop modes

`EspEventLoop<T>` is parameterised by a type `T` implementing
`EspEventLoopType`; the four instantiations used by the crate are
`System`, `User<Background>`, `User<Explicit>` and `User<Pinned>`. -/

inductive LoopMode where
  | system
  | userBackground
  | userExplicit
  | userPinned
  deriving DecidableEq, Repr

/-- Embeds `EspEventLoopType::is_system`: `true` for `System`, `false` for every
`User<T>`. -/
def LoopMode.is_system : LoopMode → Bool
  | .system => true
  | .userBackground | .userExplicit | .userPinned => false

/-- Whether the mode is one of the `User<T>` instantiations. -/
def LoopMode.isUser (m : LoopMode) : Bool := !m.is_system

/-! ## Configurations and their defaults -/

/-- The `BackgroundLoopConfiguration` (the Worker mode configuration).
The `task_name` string and `task_pin_to_core` are kept abstract as a
`String` and a core index. -/
structure BackgroundLoopConfiguration where
  queue_size : Nat
  task_name : String
  task_priority : Nat
  task_stack_size : Nat
  task_pin_to_core : Nat
  deriving DecidableEq, Repr

/-- Source impl: `Default for BackgroundLoopConfiguration`. -/
def BackgroundLoopConfiguration.default : BackgroundLoopConfiguration :=
  { queue_size := 64
    task_name := "(unknown)"
    task_priority := 0
    task_stack_size := 3072
    task_pin_to_core := 0 }

/-- The `ExplicitLoopConfiguration` (used by both Pumped modes). -/
structure ExplicitLoopConfiguration where
  queue_size : Nat
  deriving DecidableEq, Repr

/-- Source impl: `Default for ExplicitLoopConfiguration`. -/
def ExplicitLoopConfiguration.default : ExplicitLoopConfiguration :=
  { queue_size := 8192 }

/-! ## `post_raw` / `isr_post_raw`

Both select a facility entry point by `T::is_system()` and then map the
returned status identically in each branch, so the embedding takes the mode
and the facility status as arguments.  `Ok(true)` is Delivered, `Ok(false)`
is Declined. -/

/-- Embeds `EspEventLoop::post_raw`: the facility is invoked (`esp_event_post` for
System, `esp_event_post_to` for `User<T>`) and its status mapped:
`ESP_ERR_TIMEOUT ↦ Ok(false)`, otherwise `esp!(result)?; Ok(true)`. -/
def post_raw (m : LoopMode) (facilityStatus : Int) : Except Int Bool :=
  let result := facilityStatus
  let _ := m
  if result = ESP_ERR_TIMEOUT then
    .ok false
  else
    match espCheck result with
    | .error e => .error e
    | .ok _ => .ok true

/-- Embeds `EspEventLoop::isr_post_raw`: the facility is invoked
(`esp_event_isr_post` / `esp_event_isr_post_to`) and its status mapped:
`ESP_FAIL ↦ Ok(false)`, otherwise `esp!(result)?; Ok(true)`. -/
def isr_post_raw (m : LoopMode) (facilityStatus : Int) : Except Int Bool :=
  let result := facilityStatus
  let _ := m
  if result = ESP_FAIL then
    .ok false
  else
    match espCheck result with
    | .error e => .error e
    | .ok _ => .ok true

/-! ## The `Spin` capability

`impl<T> event_bus::Spin for EspEventLoop<User<T>>` provides `spin` for
every `User<T>` instantiation — `User<Background>`, `User<Explicit>` and
`User<Pinned>` alike — and there is no `Spin` impl for
`EspEventLoop<System>`. -/

/-- Which loop modes have the `spin` operation, read off from the single
`impl<T> event_bus::Spin for EspEventLoop<User<T>>` block. -/
def hasSpin : LoopMode → Bool
  | .system => false
  | .userBackground => true
  | .userExplicit => true
  | .userPinned => true

/-! ## The System (singleton) loop: `TAKEN` flag and `Arc` strong count

`static TAKEN: mutex::Mutex<bool>` guards singleton creation.
`EspEventLoop<System>` wraps `Arc<EventLoopHandle<System>>`; clones of the
loop and every `EspSubscription` (its `event_loop_handle: self.0.clone()`
field) each hold one strong reference.  When the strong count reaches zero
the `Drop` impl of `EventLoopHandle` runs. -/

/-- Process-wide state relevant to the System loop: the `TAKEN` flag, the
strong count of the live handle's `Arc` (0 when no handle is live), and
counters of the facility calls made. -/
structure SysState where
  taken : Bool
  strong : Nat
  createCalls : Nat
  deleteCalls : Nat
  deriving DecidableEq, Repr

/-- The fresh process state: flag unset, no live handle, no facility calls. -/
def SysState.init : SysState :=
  { taken := false, strong := 0, createCalls := 0, deleteCalls := 0 }

/-- Embeds `EventLoopHandle::<System>::new` wrapped by `EspEventLoop::<System>::new`:
takes the lock; if `TAKEN` is set, returns `ESP_ERR_INVALID_STATE` via `esp!`
without touching the facility; otherwise calls
`esp_event_loop_create_default()` (whose status is the oracle argument),
propagates its failure with the flag still unset, and on success sets the
flag and hands out an `Arc` with strong count 1. -/
def systemNew (s : SysState) (createStatus : Int) : Except Int Unit × SysState :=
  if s.taken then
    (.error ESP_ERR_INVALID_STATE, s)
  else
    match espCheck createStatus with
    | .error e => (.error e, { s with createCalls := s.createCalls + 1 })
    | .ok _ =>
        (.ok (), { s with
          taken := true
          strong := 1
          createCalls := s.createCalls + 1 })

/-- Cloning the System loop (`impl Clone for EspEventLoop`, `self.0.clone()`)
or creating a subscription on it (`subscribe_raw` stores
`event_loop_handle: self.0.clone()`): one more strong reference. -/
def systemAddRef (s : SysState) : SysState :=
  { s with strong := s.strong + 1 }

/-- Dropping one strong reference to the System handle.  Only when the count
reaches zero does `EventLoopHandle`'s `Drop` run: it locks `TAKEN`, calls
`esp_event_loop_delete_default()` and `unwrap`s the result — a non-`ESP_OK`
status aborts (`none`) before `*taken = false` executes, so the flag is
cleared only after a successful delete. -/
def systemDropRef (s : SysState) (deleteStatus : Int) : Option SysState :=
  if s.strong ≤ 1 then
    match espCheck deleteStatus with
    | .error _ => none
    | .ok _ =>
        some { s with
          taken := false
          strong := 0
          deleteCalls := s.deleteCalls + 1 }
  else
    some { s with strong := s.strong - 1 }

/-! ## `Drop` of `EventLoopHandle<T>` for every mode (oracle view)

Independent of the refcount bookkeeping above, the `Drop` impl itself is a
function of the mode, the current `TAKEN` flag and the facility status of
the delete call (`esp_event_loop_delete_default` for System,
`esp_event_loop_delete(handle)` for `User<T>`).  The `unwrap` makes any
non-`ESP_OK` status a process abort. -/

/-- Outcome of `EventLoopHandle::drop`: whether the process aborted, and the
resulting `TAKEN` flag (unchanged when the abort fires before the clear). -/
structure DropOutcome where
  panicked : Bool
  taken : Bool
  deriving DecidableEq, Repr

/-- Embeds `impl<T> Drop for EventLoopHandle<T>`: System takes the lock, `unwrap`s
`esp!(esp_event_loop_delete_default())` and only then clears the flag;
`User<T>` `unwrap`s `esp!(esp_event_loop_delete(handle))` and never touches
the flag. -/
def eventLoopHandleDrop (m : LoopMode) (taken : Bool) (deleteStatus : Int) :
    DropOutcome :=
  if m.is_system then
    match espCheck deleteStatus with
    | .error _ => { panicked := true, taken := taken }
    | .ok _ => { panicked := false, taken := false }
  else
    match espCheck deleteStatus with
    | .error _ => { panicked := true, taken := taken }
    | .ok _ => { panicked := false, taken := taken }

/-! ## Reference counting for any loop (C5)

A mode-independent view of the `Arc<EventLoopHandle<T>>` share count:
`EspEventLoop::new` starts it at 1, `Clone for EspEventLoop` and
`subscribe_raw` (whose returned `EspSubscription` stores
`event_loop_handle: self.0.clone()`) each add one, and dropping any
`EspEventLoop` value or `EspSubscription` removes one; the native resource
is deleted exactly when the count falls from 1 to 0 (the facility delete is
assumed to succeed here). -/

structure RcState where
  strong : Nat
  deleteCalls : Nat
  deriving DecidableEq, Repr

/-- State right after `EspEventLoop::new` succeeded: one strong reference,
nothing deleted. -/
def RcState.fresh : RcState := { strong := 1, deleteCalls := 0 }

/-- One more holder: a `Clone` of the loop or a new `EspSubscription`. -/
def RcState.addRef (s : RcState) : RcState :=
  { s with strong := s.strong + 1 }

/-- One holder dropped (a loop value or a subscription): the strong count
decrements, and the native delete runs exactly when it reaches zero. -/
def RcState.dropRef (s : RcState) : RcState :=
  if s.strong ≤ 1 then
    { strong := 0, deleteCalls := s.deleteCalls + 1 }
  else
    { s with strong := s.strong - 1 }

/-- Performs `n` successive holder drops. -/
def RcState.dropRefs (s : RcState) : Nat → RcState
  | 0 => s
  | n + 1 => (s.dropRef).dropRefs n

/-- Performs `n` successive holder additions. -/
def RcState.addRefs (s : RcState) : Nat → RcState
  | 0 => s
  | n + 1 => (s.addRef).addRefs n

/-! ## Subscription teardown and the callback trampoline (C6)

`impl<T> Drop for EspSubscription<T>` calls the mode-appropriate unregister
entry point and `unwrap`s the `esp!` result: any non-`ESP_OK` status aborts.
`subscribe_raw` stores the user callback wrapped as
`move |data| callback(data).unwrap()`, so a callback returning `Err` aborts
at the trampoline boundary. -/

/-- Embeds `EspEventFetchData`: the raw view handed to a callback.  The source and
payload pointers are modelled as addresses. -/
structure EspEventFetchData where
  source : Nat
  event_id : Int
  payload : Nat
  deriving DecidableEq, Repr

/-- Embeds `impl<T> Drop for EspSubscription<T>`: both branches (`is_system` and
not) `unwrap` the `esp!` of the unregister call, so the outcome is `none`
(abort) exactly when the facility status is not `ESP_OK`. -/
def subscriptionDrop (m : LoopMode) (unregisterStatus : Int) : Option Unit :=
  let check := if m.is_system then espCheck unregisterStatus
               else espCheck unregisterStatus
  match check with
  | .error _ => none
  | .ok _ => some ()

/-- The closure stored by `subscribe_raw`:
`move |data| callback(data).unwrap()`.  `none` is the abort. -/
def wrapCallback {E : Type} (callback : EspEventFetchData → Except E Unit)
    (data : EspEventFetchData) : Option Unit :=
  match callback data with
  | .error _ => none
  | .ok _ => some ()

/-- The `extern "C"` trampoline `EspSubscription::handle`: rebuilds an
`EspEventFetchData` from the raw arguments and invokes the stored closure
recovered from the context pointer. -/
def trampolineHandle {E : Type} (callback : EspEventFetchData → Except E Unit)
    (event_base : Nat) (event_id : Int) (event_data : Nat) : Option Unit :=
  wrapCallback callback
    { source := event_base, event_id := event_id, payload := event_data }

/-! ## Post / fetch payload descriptors (C8)

`EspEventPostData::new::<P>` stores the address of the borrowed payload and
`mem::size_of::<P>()`; `EspEventFetchData::as_payload::<P>` dereferences the
payload pointer at type `P`.  Memory is modelled as a byte map
`Nat → Nat`, and a `Copy` payload type as an encode/decode pair on byte
lists of length `size_of`. -/

/-- A `Copy` type `P` for payload purposes: its byte size, how a value lays
out in memory, and how a value is read back, with the two laws Rust's `Copy`
semantics gives (a value occupies `size` bytes and reading the bytes of a
stored value yields the value). -/
structure CopyLayout (P : Type) where
  size : Nat
  toBytes : P → List Nat
  fromBytes : List Nat → P
  length_toBytes : ∀ p : P, (toBytes p).length = size
  from_to : ∀ p : P, fromBytes (toBytes p) = p

/-- Read `n` bytes of `mem` starting at address `a`. -/
def readBytes (mem : Nat → Nat) (a n : Nat) : List Nat :=
  (List.range n).map fun i => mem (a + i)

/-- Write the byte list `bs` into `mem` at address `a`. -/
def writeBytes (mem : Nat → Nat) (a : Nat) (bs : List Nat) : Nat → Nat :=
  fun x => if h : a ≤ x ∧ x - a < bs.length then bs.get ⟨x - a, h.2⟩ else mem x

/-- The `EspEventPostData` descriptor as built by `EspEventPostData::new::<P>(source,
event_id, &payload)`: the payload field is the borrow's address and
`payload_len = mem::size_of::<P>()`. -/
structure EspEventPostData where
  source : Nat
  event_id : Int
  payload : Nat
  payload_len : Nat
  deriving DecidableEq, Repr

/-- Embeds `EspEventPostData::new::<P>`: given the address `addr` where the borrowed
`p : P` lives in `mem`, records that address and `size_of::<P>()`.  The
returned memory is `mem` with `p`'s bytes at `addr` (the borrow's contract:
`*(&p)` is `p`). -/
def EspEventPostData.new {P : Type} (L : CopyLayout P)
    (source : Nat) (event_id : Int) (addr : Nat) (p : P) (mem : Nat → Nat) :
    EspEventPostData × (Nat → Nat) :=
  ({ source := source
     event_id := event_id
     payload := addr
     payload_len := L.size },
   writeBytes mem addr (L.toBytes p))

/-- Embeds `EspEventFetchData::as_payload::<P>`: dereference the payload pointer at
type `P`, i.e. decode `size_of::<P>()` bytes at that address. -/
def EspEventFetchData.as_payload {P : Type} (L : CopyLayout P)
    (d : EspEventFetchData) (mem : Nat → Nat) : P :=
  L.fromBytes (readBytes mem d.payload L.size)

/-! ## Theorems -/

/-- C9: the default configurations are exactly as documented:
`BackgroundLoopConfiguration::default()` has `queue_size` 64,
`task_stack_size` 3072 and `task_priority` 0, and
`ExplicitLoopConfiguration::default()` has `queue_size` 8192. -/
theorem C9_default_configurations :
    BackgroundLoopConfiguration.default.queue_size = 64 ∧
    BackgroundLoopConfiguration.default.task_stack_size = 3072 ∧
    BackgroundLoopConfiguration.default.task_priority = 0 ∧
    ExplicitLoopConfiguration.default.queue_size = 8192 :=
  ⟨rfl, rfl, rfl, rfl⟩

/-- C2: for every loop mode and facility status, `post_raw` returns
`Ok(false)` (Declined) exactly on `ESP_ERR_TIMEOUT`, `Ok(true)` (Delivered)
exactly on `ESP_OK`, and `Err` carrying the status on every other nonzero
status — a timed-out post is a normal outcome, never an error. -/
theorem C2_post_raw_status_mapping (m : LoopMode) (status : Int) :
    (post_raw m status = .ok false ↔ status = ESP_ERR_TIMEOUT) ∧
    (post_raw m status = .ok true ↔ status = ESP_OK) ∧
    (status ≠ ESP_OK → status ≠ ESP_ERR_TIMEOUT →
      post_raw m status = .error status) := by
  unfold post_raw espCheck
  rcases eq_or_ne status ESP_ERR_TIMEOUT with ht | ht
  · subst ht
    refine ⟨by simp, ?_, by simp⟩
    constructor
    · intro h
      simp at h
    · intro h
      exact absurd h (by decide)
  · rcases eq_or_ne status ESP_OK with ho | ho
    · subst ho
      simp [ht]
    · simp [ht, ho]

/-- Closed instance of `C2_post_raw_status_mapping`: status 5 (neither
`ESP_OK` nor `ESP_ERR_TIMEOUT`) yields `Err(5)` on the System loop. -/
theorem C2_post_raw_status_mapping_witness :
    post_raw LoopMode.system 5 = .error 5 :=
  (C2_post_raw_status_mapping LoopMode.system 5).2.2 (by decide) (by decide)

/-- C3: for every loop mode and facility status, `isr_post_raw` returns
`Ok(false)` (Declined) exactly on `ESP_FAIL` — a different sentinel from the
`ESP_ERR_TIMEOUT` that `post_raw` maps to Declined — `Ok(true)` on `ESP_OK`,
and `Err` carrying the status otherwise; in particular `post_raw` treats
`ESP_FAIL` as an error and `isr_post_raw` treats `ESP_ERR_TIMEOUT` as an
error, so the two soft-outcome sentinels are not unified. -/
theorem C3_isr_post_raw_status_mapping (m : LoopMode) (status : Int) :
    (isr_post_raw m status = .ok false ↔ status = ESP_FAIL) ∧
    (isr_post_raw m status = .ok true ↔ status = ESP_OK) ∧
    (status ≠ ESP_OK → status ≠ ESP_FAIL →
      isr_post_raw m status = .error status) ∧
    ESP_FAIL ≠ ESP_ERR_TIMEOUT ∧
    post_raw m ESP_FAIL = .error ESP_FAIL ∧
    isr_post_raw m ESP_ERR_TIMEOUT = .error ESP_ERR_TIMEOUT := by
  refine ⟨?_, ?_, ?_, by decide, ?_, ?_⟩
  · unfold isr_post_raw espCheck
    rcases eq_or_ne status ESP_FAIL with hf | hf
    · subst hf
      simp
    · rcases eq_or_ne status ESP_OK with ho | ho
      · subst ho
        simp [hf]
      · simp [hf, ho]
  · unfold isr_post_raw espCheck
    rcases eq_or_ne status ESP_FAIL with hf | hf
    · subst hf
      refine ⟨fun h => by simp at h, fun h => absurd h (by decide)⟩
    · rcases eq_or_ne status ESP_OK with ho | ho
      · subst ho
        simp [hf]
      · simp [hf, ho]
  · intro ho hf
    unfold isr_post_raw espCheck
    simp [hf, ho]
  · exact (C2_post_raw_status_mapping m ESP_FAIL).2.2 (by decide) (by decide)
  · unfold isr_post_raw espCheck
    norm_num [ESP_ERR_TIMEOUT, ESP_FAIL, ESP_OK]

/-- Closed instance of `C3_isr_post_raw_status_mapping`: status 7 yields
`Err(7)` from `isr_post_raw` on the Background loop. -/
theorem C3_isr_post_raw_status_mapping_witness :
    isr_post_raw LoopMode.userBackground 7 = .error 7 :=
  (C3_isr_post_raw_status_mapping LoopMode.userBackground 7).2.2.1
    (by decide) (by decide)

/-- Counterexample to C4 as stated: the single generic
`impl<T> event_bus::Spin for EspEventLoop<User<T>>` covers `User<Background>`
as well, so the spin capability is present on the Worker (Background) loop
type, contradicting the claim that it is absent there. -/
theorem C4_spin_counterexample : hasSpin LoopMode.userBackground = true := rfl

/-- C4 (amended): the spin operation is provided for every `User<T>` loop
type — Worker (Background), Pumped (Explicit) and PumpedPinned (Pinned) —
and is absent only from the Singleton (System) loop type. -/
theorem C4_spin_capability (m : LoopMode) :
    hasSpin m = true ↔ m ≠ LoopMode.system := by
  cases m <;> simp [hasSpin]

/-- Reachable process states for the System loop: the fresh process, then any
interleaving of `EspEventLoop::<System>::new` attempts (any facility status),
clones / subscriptions taken from a live loop, and drops of a live reference
(any facility status whose drop does not abort). -/
inductive SysReach : SysState → Prop where
  | init : SysReach SysState.init
  | new (s : SysState) (c : Int) : SysReach s → SysReach (systemNew s c).2
  | addRef (s : SysState) : SysReach s → 0 < s.strong →
      SysReach (systemAddRef s)
  | dropRef (s s' : SysState) (c : Int) : SysReach s → 0 < s.strong →
      systemDropRef s c = some s' → SysReach s'

/-- Invariant of the System state machine: whenever some reference to the
System handle is live, the `TAKEN` flag is set. -/
theorem sysReach_strong_taken {s : SysState} (h : SysReach s) :
    0 < s.strong → s.taken = true := by
  induction h with
  | init => intro hpos; exact absurd hpos (by decide)
  | new s c hs ih =>
      intro hpos
      unfold systemNew espCheck at hpos ⊢
      by_cases ht : s.taken
      · simp [ht]
      · by_cases hc : c = ESP_OK
        · simp [ht, hc]
        · simp [ht, hc] at hpos ⊢
          exact ht (ih hpos)
  | addRef s hs hpos ih =>
      intro _
      simpa [systemAddRef] using ih hpos
  | dropRef s s' c hs hpos heq ih =>
      intro hpos'
      unfold systemDropRef espCheck at heq
      by_cases hle : s.strong ≤ 1
      · by_cases hc : c = ESP_OK
        · simp [hle, hc] at heq
          rw [← heq] at hpos'
          exact absurd hpos' (by simp)
        · simp [hle, hc] at heq
      · simp [hle] at heq
        rw [← heq] at hpos' ⊢
        exact ih hpos

/-- C1: at most one live Singleton loop exists process-wide.  (i) With the
`TAKEN` flag set, every `EspEventLoop::<System>::new` call returns
`ESP_ERR_INVALID_STATE` (AlreadyExists) with the state — in particular the
facility-call counter — unchanged; (ii) in every reachable state, a live
reference (loop clone or Subscription) implies the flag is set, so the
failure in (i) applies while one is live; (iii) dropping the last reference
clears the flag and a new creation attempt then succeeds. -/
theorem C1_singleton_uniqueness :
    (∀ (s : SysState) (c : Int), s.taken = true →
      systemNew s c = (.error ESP_ERR_INVALID_STATE, s)) ∧
    (∀ s : SysState, SysReach s → 0 < s.strong → s.taken = true) ∧
    (∀ s : SysState, s.strong = 1 → ∃ s',
      systemDropRef s ESP_OK = some s' ∧ s'.taken = false ∧
      (systemNew s' ESP_OK).1 = .ok ()) := by
  refine ⟨?_, fun s h => sysReach_strong_taken h, ?_⟩
  · intro s c h
    unfold systemNew
    simp [h]
  · intro s h
    refine ⟨{ s with taken := false, strong := 0, deleteCalls := s.deleteCalls + 1 }, ?_, rfl, ?_⟩
    · unfold systemDropRef espCheck
      simp [h]
    · unfold systemNew espCheck
      simp

/-- Closed instance of `C1_singleton_uniqueness`: with a live System loop
(flag set, two references) creation fails leaving the state untouched; a
freshly created and once-cloned loop has the flag set; and dropping the last
reference of a live loop lets a new creation succeed. -/
theorem C1_singleton_uniqueness_witness :
    (systemNew { taken := true, strong := 2, createCalls := 1, deleteCalls := 0 }
        ESP_OK
      = (.error ESP_ERR_INVALID_STATE,
         { taken := true, strong := 2, createCalls := 1, deleteCalls := 0 })) ∧
    (systemAddRef (systemNew SysState.init ESP_OK).2).taken = true ∧
    (∃ s', systemDropRef
        { taken := true, strong := 1, createCalls := 1, deleteCalls := 0 } ESP_OK
        = some s' ∧ s'.taken = false ∧ (systemNew s' ESP_OK).1 = .ok ()) := by
  refine ⟨C1_singleton_uniqueness.1 _ ESP_OK rfl, ?_,
    C1_singleton_uniqueness.2.2 _ rfl⟩
  exact C1_singleton_uniqueness.2.1 _
    (SysReach.addRef _ (SysReach.new SysState.init ESP_OK SysReach.init)
      (by decide))
    (by decide)

/-- C7: singleton creation is atomic with respect to the global flag.  When
`esp_event_loop_create_default` fails, `EspEventLoop::<System>::new` returns
that error with the flag still unset (only the facility-call counter
advanced), and a later attempt with the facility succeeding is not blocked:
it returns `Ok`. -/
theorem C7_singleton_create_atomic (s : SysState) (err : Int)
    (htaken : s.taken = false) (herr : err ≠ ESP_OK) :
    systemNew s err
      = (.error err, { s with createCalls := s.createCalls + 1 }) ∧
    (systemNew s err).2.taken = false ∧
    (systemNew (systemNew s err).2 ESP_OK).1 = .ok () := by
  unfold systemNew espCheck
  simp [htaken, herr]

/-- Closed instance of `C7_singleton_create_atomic`: a failed create
(`ESP_FAIL`) on the fresh process leaves the flag clear and the next attempt
succeeds. -/
theorem C7_singleton_create_atomic_witness :
    systemNew SysState.init (-1)
      = (.error (-1),
         { SysState.init with createCalls := SysState.init.createCalls + 1 }) ∧
    (systemNew SysState.init (-1)).2.taken = false ∧
    (systemNew (systemNew SysState.init (-1)).2 ESP_OK).1 = .ok () :=
  C7_singleton_create_atomic SysState.init (-1) rfl (by decide)

/-- C10: for every loop mode, `EventLoopHandle::drop` escalates a failing
facility delete (`esp_event_loop_delete_default` / `esp_event_loop_delete`)
to an abort via `unwrap`, leaving the `TAKEN` flag as it was; for the System
mode with a successful delete the flag is cleared — so it is cleared only
after the delete call returns success. -/
theorem C10_drop_delete_failure_aborts (m : LoopMode) (taken : Bool)
    (status : Int) :
    (status ≠ ESP_OK →
      eventLoopHandleDrop m taken status
        = { panicked := true, taken := taken }) ∧
    (m.is_system = true →
      eventLoopHandleDrop m taken ESP_OK
        = { panicked := false, taken := false }) := by
  constructor
  · intro h
    unfold eventLoopHandleDrop espCheck
    by_cases hs : m.is_system <;> simp [hs, h]
  · intro h
    unfold eventLoopHandleDrop espCheck
    simp [h]

/-- Closed instance of `C10_drop_delete_failure_aborts`: a System-loop drop
whose delete returns `ESP_FAIL` aborts with the flag still set, and one whose
delete succeeds clears the flag without aborting. -/
theorem C10_drop_delete_failure_aborts_witness :
    eventLoopHandleDrop LoopMode.system true (-1)
      = { panicked := true, taken := true } ∧
    eventLoopHandleDrop LoopMode.system true ESP_OK
      = { panicked := false, taken := false } :=
  ⟨(C10_drop_delete_failure_aborts LoopMode.system true (-1)).1 (by decide),
   (C10_drop_delete_failure_aborts LoopMode.system true ESP_OK).2 rfl⟩

/-! ### Reference-count lemmas (for C5) -/

theorem RcState.addRefs_strong (s : RcState) (n : Nat) :
    (s.addRefs n).strong = s.strong + n := by
  induction n generalizing s with
  | zero => rfl
  | succ n ih =>
      show ((s.addRef).addRefs n).strong = s.strong + (n + 1)
      rw [ih]
      show s.strong + 1 + n = s.strong + (n + 1)
      omega

theorem RcState.addRefs_deleteCalls (s : RcState) (n : Nat) :
    (s.addRefs n).deleteCalls = s.deleteCalls := by
  induction n generalizing s with
  | zero => rfl
  | succ n ih =>
      show ((s.addRef).addRefs n).deleteCalls = s.deleteCalls
      rw [ih]
      rfl

theorem RcState.dropRefs_succ (s : RcState) (n : Nat) :
    s.dropRefs (n + 1) = (s.dropRefs n).dropRef := by
  induction n generalizing s with
  | zero => rfl
  | succ n ih =>
      show (s.dropRef).dropRefs (n + 1) = ((s.dropRef).dropRefs n).dropRef
      exact ih s.dropRef

/-- Dropping fewer holders than are live never triggers the native delete and
decrements the count by exactly the number of drops. -/
theorem RcState.dropRefs_lt (s : RcState) (d : Nat) (h : d < s.strong) :
    (s.dropRefs d).strong = s.strong - d ∧
    (s.dropRefs d).deleteCalls = s.deleteCalls := by
  induction d generalizing s with
  | zero => exact ⟨rfl, rfl⟩
  | succ d ih =>
      have h2 : ¬ s.strong ≤ 1 := by omega
      have hdrop : s.dropRef = { s with strong := s.strong - 1 } := by
        unfold RcState.dropRef
        simp [h2]
      have hstep : s.dropRefs (d + 1) = (s.dropRef).dropRefs d := rfl
      obtain ⟨h1', h2'⟩ :=
        ih { s with strong := s.strong - 1 } (show d < s.strong - 1 by omega)
      rw [hstep, hdrop]
      refine ⟨?_, h2'⟩
      rw [h1']
      show s.strong - 1 - d = s.strong - (d + 1)
      omega

/-- Dropping exactly as many holders as are live triggers the native delete
exactly once, at the last drop. -/
theorem RcState.dropRefs_all (s : RcState) (h : 0 < s.strong) :
    (s.dropRefs s.strong).strong = 0 ∧
    (s.dropRefs s.strong).deleteCalls = s.deleteCalls + 1 := by
  obtain ⟨hlt1, hlt2⟩ := RcState.dropRefs_lt s (s.strong - 1) (by omega)
  have hs : s.strong = (s.strong - 1) + 1 := by omega
  have hsplit : s.dropRefs s.strong = (s.dropRefs (s.strong - 1)).dropRef := by
    conv_lhs => rw [hs]
    exact RcState.dropRefs_succ s (s.strong - 1)
  have ht1 : (s.dropRefs (s.strong - 1)).strong = 1 := by
    rw [hlt1]
    omega
  rw [hsplit]
  unfold RcState.dropRef
  rw [ht1, hlt2]
  simp

/-- C5: `EspEventLoop::new` hands out one strong reference; each `Clone` of
the loop and each `EspSubscription` produced by `subscribe_raw` adds one
more; after `n` such additions, dropping any `d < n + 1` of the holders (any
proper subset — in particular all loop clones while a Subscription lives)
deletes nothing and leaves `n + 1 - d` references, while dropping all
`n + 1` holders calls the native delete exactly once and leaves none. -/
theorem C5_refcount_delete_once (n d : Nat) (hd : d < n + 1) :
    ((RcState.fresh.addRefs n).dropRefs d).deleteCalls = 0 ∧
    ((RcState.fresh.addRefs n).dropRefs d).strong = n + 1 - d ∧
    ((RcState.fresh.addRefs n).dropRefs (n + 1)).deleteCalls = 1 ∧
    ((RcState.fresh.addRefs n).dropRefs (n + 1)).strong = 0 := by
  have hstrong : (RcState.fresh.addRefs n).strong = n + 1 := by
    rw [RcState.addRefs_strong]
    show 1 + n = n + 1
    omega
  have hdel : (RcState.fresh.addRefs n).deleteCalls = 0 :=
    RcState.addRefs_deleteCalls _ _
  obtain ⟨h1, h2⟩ := RcState.dropRefs_lt (RcState.fresh.addRefs n) d
    (by rw [hstrong]; omega)
  obtain ⟨h3, h4⟩ := RcState.dropRefs_all (RcState.fresh.addRefs n)
    (by rw [hstrong]; omega)
  rw [hstrong] at h1 h3 h4
  rw [hdel] at h4
  exact ⟨by rw [h2, hdel], by rw [h1], h4, h3⟩

/-- Closed instance of `C5_refcount_delete_once`: one loop plus five clones
(six holders); dropping four deletes nothing and leaves two references;
dropping all six deletes exactly once. -/
theorem C5_refcount_delete_once_witness :
    ((RcState.fresh.addRefs 5).dropRefs 4).deleteCalls = 0 ∧
    ((RcState.fresh.addRefs 5).dropRefs 4).strong = 5 + 1 - 4 ∧
    ((RcState.fresh.addRefs 5).dropRefs 6).deleteCalls = 1 ∧
    ((RcState.fresh.addRefs 5).dropRefs 6).strong = 0 :=
  C5_refcount_delete_once 5 4 (by decide)

/-- C6: a failed unregister during `EspSubscription::drop` aborts the
process (`none`) for every loop mode and every non-`ESP_OK` status rather
than being returned or swallowed (a successful unregister does not abort),
and a subscribed callback returning any failure value of any error type is
escalated to an abort at the trampoline boundary by the `unwrap` inside the
closure stored by `subscribe_raw`. -/
theorem C6_teardown_and_callback_failures_abort :
    (∀ (m : LoopMode) (status : Int), status ≠ ESP_OK →
      subscriptionDrop m status = none) ∧
    (∀ m : LoopMode, subscriptionDrop m ESP_OK = some ()) ∧
    (∀ (E : Type) (cb : EspEventFetchData → Except E Unit)
        (base : Nat) (id : Int) (dataAddr : Nat) (e : E),
      cb { source := base, event_id := id, payload := dataAddr } = .error e →
      trampolineHandle cb base id dataAddr = none) := by
  refine ⟨?_, ?_, ?_⟩
  · intro m status h
    unfold subscriptionDrop espCheck
    by_cases hs : m.is_system <;> simp [hs, h]
  · intro m
    unfold subscriptionDrop espCheck
    by_cases hs : m.is_system <;> simp [hs]
  · intro E cb base id dataAddr e h
    unfold trampolineHandle wrapCallback
    rw [h]

/-- Closed instance of `C6_teardown_and_callback_failures_abort`: an
`ESP_FAIL` unregister on the Explicit loop aborts, a successful one on the
System loop does not, and a callback failing with the error value `3` aborts
at the trampoline. -/
theorem C6_teardown_and_callback_failures_abort_witness :
    subscriptionDrop LoopMode.userExplicit (-1) = none ∧
    subscriptionDrop LoopMode.system ESP_OK = some () ∧
    trampolineHandle (fun _ => (.error 3 : Except Int Unit)) 0 0 0 = none :=
  ⟨C6_teardown_and_callback_failures_abort.1 LoopMode.userExplicit (-1)
      (by decide),
   C6_teardown_and_callback_failures_abort.2.1 LoopMode.system,
   C6_teardown_and_callback_failures_abort.2.2 Int
      (fun _ => (.error 3 : Except Int Unit)) 0 0 0 3 rfl⟩

/-! ### Payload round-trip (for C8) -/

/-- Reading back exactly the bytes just written yields the written list. -/
theorem readBytes_writeBytes (mem : Nat → Nat) (a : Nat) (bs : List Nat) :
    readBytes (writeBytes mem a bs) a bs.length = bs := by
  unfold readBytes writeBytes
  apply List.ext_getElem
  · simp
  · intro i h1 h2
    simp only [List.getElem_map, List.getElem_range]
    rw [dif_pos ⟨Nat.le_add_right a i, by simpa [Nat.add_sub_cancel_left] using h2⟩]
    simp [Nat.add_sub_cancel_left]

/-- C8: a post descriptor built by `EspEventPostData::new(source, event_id,
&p)` carries `payload_len = mem::size_of::<P>()` and a payload pointer from
which `EspEventFetchData::as_payload::<P>()` — applied to a fetch descriptor
carrying that pointer unchanged, over the memory in which the borrowed `p`
lives — reads back a value equal to `p`, for every `Copy` layout of `P`. -/
theorem C8_payload_roundtrip {P : Type} (L : CopyLayout P) (source : Nat)
    (event_id : Int) (addr : Nat) (p : P) (mem : Nat → Nat) :
    (EspEventPostData.new L source event_id addr p mem).1.payload_len
      = L.size ∧
    EspEventFetchData.as_payload L
      ⟨source, event_id, (EspEventPostData.new L source event_id addr p mem).1.payload⟩
      (EspEventPostData.new L source event_id addr p mem).2 = p := by
  refine ⟨rfl, ?_⟩
  show L.fromBytes (readBytes (writeBytes mem addr (L.toBytes p)) addr L.size) = p
  rw [← L.length_toBytes p, readBytes_writeBytes, L.from_to]

/-- A concrete `Copy` layout: `bool` as a single byte. -/
def boolLayout : CopyLayout Bool where
  size := 1
  toBytes := fun b => [if b then 1 else 0]
  fromBytes := fun l => l.headD 0 == 1
  length_toBytes := fun _ => rfl
  from_to := by intro b; cases b <;> rfl

/-- Closed instance of `C8_payload_roundtrip`: posting the `bool` payload
`true` from address 100 over zeroed memory reads back `true` with
`payload_len = 1`. -/
theorem C8_payload_roundtrip_witness :
    (EspEventPostData.new boolLayout 7 42 100 true (fun _ => 0)).1.payload_len
      = boolLayout.size ∧
    EspEventFetchData.as_payload boolLayout
      ⟨7, 42, (EspEventPostData.new boolLayout 7 42 100 true (fun _ => 0)).1.payload⟩
      (EspEventPostData.new boolLayout 7 42 100 true (fun _ => 0)).2 = true :=
  C8_payload_roundtrip boolLayout 7 42 100 true (fun _ => 0)

end EspIdfSvc
